import Mathlib

/-!
Shallow embedding of the synthetic GPX activity-track generator of the
fakestrava repository (the `lib/gpx.ts` module: track-point generation,
realistic timestamp synthesis, pacing curve, speed variation, grade
adjustment, elevation providers and the GPX serializers), together with
theorems settling the specification's claims about it.

Modelling conventions:
* JS numbers are real numbers.
* Every `Math.random()` call site receives its draws explicitly (a value or a
  stream of values in `[0,1)`), since the source uses ambient randomness.
* External collaborators (the `@turf/distance` function, the elevation HTTP
  endpoint, `Number.toFixed` / `Date.toISOString` formatting) are parameters
  of the embedding.
* `new Date(ms)` arithmetic is modelled as real-valued milliseconds.
-/

namespace FakeStrava

open Real

inductive ActivityType
  | Run
  | Bike
  | Walk
  deriving DecidableEq

inductive ElevationProfile
  | flat
  | hilly
  | mountainous
  deriving DecidableEq

/-- Default speeds for different activities (km/h), from `DEFAULT_SPEEDS`. -/
def DEFAULT_SPEEDS : ActivityType → ℝ
  | .Run => 10
  | .Bike => 25
  | .Walk => 5

structure ProfileRange where
  min : ℝ
  max : ℝ

/-- Elevation profiles (meters per km), from `ELEVATION_PROFILES`. -/
def ELEVATION_PROFILES : ElevationProfile → ProfileRange
  | .flat => ⟨0, 10⟩
  | .hilly => ⟨20, 50⟩
  | .mountainous => ⟨50, 100⟩

/-- JS `Math.round`: round half toward positive infinity. -/
noncomputable def jsRound (x : ℝ) : ℝ := (⌊x + 1 / 2⌋ : ℤ)

/-- JS `Math.atan2 y x` (standard two-argument arctangent). -/
noncomputable def atan2 (y x : ℝ) : ℝ :=
  if 0 < x then arctan (y / x)
  else if x < 0 then (if 0 ≤ y then arctan (y / x) + π else arctan (y / x) - π)
  else (if 0 < y then π / 2 else if y < 0 then -(π / 2) else 0)

/-- Embedding of `haversineDistance` from the source: great-circle distance in km with
Earth radius 6371 km. -/
noncomputable def haversineDistance (lat1 lng1 lat2 lng2 : ℝ) : ℝ :=
  let R : ℝ := 6371
  let dLat := (lat2 - lat1) * π / 180
  let dLng := (lng2 - lng1) * π / 180
  let a := sin (dLat / 2) * sin (dLat / 2) +
    cos (lat1 * π / 180) * cos (lat2 * π / 180) * sin (dLng / 2) * sin (dLng / 2)
  let c := 2 * atan2 (Real.sqrt a) (Real.sqrt (1 - a))
  R * c

/-- Embedding of `calculateSpeedAdjustmentForElevation`: maps an elevation change (m) over
a segment distance (km) to a speed multiplier. -/
noncomputable def calculateSpeedAdjustmentForElevation (elevationChange distanceKm : ℝ) : ℝ :=
  if distanceKm = 0 then 1
  else
    let gradient := (elevationChange / 1000) / distanceKm
    if gradient > 0.05 then 0.6
    else if gradient > 0.02 then 0.8
    else if gradient < -0.05 then 1.2
    else if gradient < -0.02 then 1.1
    else 1

/-- Embedding of `calculateElevation` (legacy simulated elevation): sine-profile variation
plus cumulative gain plus uniform noise, rounded. `u` is the `Math.random()`
draw. There is no non-negativity floor in the source. -/
noncomputable def calculateElevation (pointIndex totalPoints : ℕ)
    (currentDistance totalDistance totalElevationGain : ℝ)
    (elevationProfile : ElevationProfile) (baseElevation : ℝ) (u : ℝ) : ℝ :=
  let progress : ℝ := (pointIndex : ℝ) / ((totalPoints : ℝ) - 1)
  let profileSettings := ELEVATION_PROFILES elevationProfile
  let elevationVariation := profileSettings.min +
    (profileSettings.max - profileSettings.min) * sin (progress * π * 2)
  let cumulativeGain := totalElevationGain * progress
  let noise := (u - 0.5) * 10
  jsRound (baseElevation + cumulativeGain + elevationVariation + noise)

structure PacingPattern where
  warmup : ℝ
  peak : ℝ
  fatigue : ℝ

/-- Activity-specific pacing patterns from `generatePacingCurve`. -/
def pacingPatterns : ActivityType → PacingPattern
  | .Run => ⟨0.85, 1.08, 0.92⟩
  | .Bike => ⟨0.90, 1.05, 0.95⟩
  | .Walk => ⟨0.95, 1.02, 0.98⟩

/-- The multiplier the `generatePacingCurve` loop computes at index `i` for a
curve of `pointCount` points. -/
noncomputable def pacingMultiplier (pointCount : ℕ) (activityType : ActivityType) (i : ℕ) : ℝ :=
  let pattern := pacingPatterns activityType
  let progress : ℝ := (i : ℝ) / ((pointCount : ℝ) - 1)
  if progress < 0.2 then
    pattern.warmup + (1 - pattern.warmup) * (progress / 0.2)
  else if progress < 0.7 then
    pattern.peak + sin ((progress - 0.2) / 0.5 * π * 2) * 0.03
  else
    pattern.peak - (pattern.peak - pattern.fatigue) * ((progress - 0.7) / 0.3)

/-- Embedding of `generatePacingCurve`: one multiplier per point index. -/
noncomputable def generatePacingCurve (pointCount : ℕ) (activityType : ActivityType) : List ℝ :=
  (List.range pointCount).map (pacingMultiplier pointCount activityType)

/-- Embedding of `addSpeedVariation`: Box-Muller Gaussian speed variation, hard-clamped to
`[0.2 × baseSpeed, 1.8 × baseSpeed]`. `u1`, `u2` are the two `Math.random()`
draws. -/
noncomputable def addSpeedVariation (baseSpeed variationFactor u1 u2 : ℝ) : ℝ :=
  let gaussian := Real.sqrt (-2 * Real.log u1) * cos (2 * π * u2)
  let variation := gaussian * variationFactor
  let speedWithVariation := baseSpeed * (1 + variation)
  let minSpeed := baseSpeed * 0.2
  let maxSpeed := baseSpeed * 1.8
  max minSpeed (min maxSpeed speedWithVariation)

/-- Embedding of `calculateRealisticElevation`: exponentially smoothed elevation target
with jitter, floored at 0. `u` is the `Math.random()` draw. -/
noncomputable def calculateRealisticElevation
    (currentElevation progressRate totalElevationGain totalDistance : ℝ) (u : ℝ) : ℝ :=
  let targetElevation := 100 + totalElevationGain * progressRate
  let variation := (u - 0.5) * 20
  let smoothingFactor : ℝ := 0.7
  let newElevation := currentElevation * smoothingFactor +
    (targetElevation + variation) * (1 - smoothingFactor)
  max 0 newElevation

/-- Embedding of `getStartingElevation`: random starting elevation, `u` the draw. -/
noncomputable def getStartingElevation (u : ℝ) : ℝ := 50 + u * 150

/-! ### Legacy generation path: `generateTrackPoints` -/

/-- A `[lng, lat]` coordinate tuple as produced by the routing layer. -/
structure Coord where
  lng : ℝ
  lat : ℝ

/-- The `GPXPoint` record of the source. -/
structure GPXPoint where
  lat : ℝ
  lng : ℝ
  elevation : Option ℝ
  time : Option ℝ

/-- Environment and options of one `generateTrackPoints` call. `tdist` is the
external `@turf/distance` collaborator (`calculateSegmentDistance`); `eU`,
`sU`, `pU`, `pA` are the `Math.random()` draws used for, respectively, the
elevation noise at point `i`, the speed variation at segment `i`, the pause
check at segment `i` and the pause amount at segment `i`. -/
structure LegacyCtx where
  startTime : ℝ
  speedKmh : ℝ
  elevationGain : Option ℝ
  elevationProfile : ElevationProfile
  addNoise : Bool
  pauseDuration : ℝ
  tdist : Coord → Coord → ℝ
  eU : ℕ → ℝ
  sU : ℕ → ℝ
  pU : ℕ → ℝ
  pA : ℕ → ℝ

/-- Embedding of `calculateCoordinatesDistance`: total route distance via `tdist`. -/
noncomputable def calculateCoordinatesDistance (tdist : Coord → Coord → ℝ) :
    List Coord → ℝ
  | a :: b :: rest => tdist a b + calculateCoordinatesDistance tdist (b :: rest)
  | _ => 0

/-- Whether the legacy loop tracks elevation:
`elevationGain !== undefined || elevationProfile !== 'flat'`. -/
def LegacyCtx.trackElev (C : LegacyCtx) : Prop :=
  C.elevationGain.isSome = true ∨ C.elevationProfile ≠ ElevationProfile.flat

instance (C : LegacyCtx) : Decidable C.trackElev := by
  unfold LegacyCtx.trackElev
  infer_instance

/-- The elevation the legacy loop attaches to point `i` (note the source
passes the constant `cumulativeElevation = 0` as `baseElevation`, and
`elevationGain || 0` as the gain). -/
noncomputable def legacyElev (C : LegacyCtx) (n : ℕ) (totalRoute : ℝ) (i : ℕ) (d : ℝ) :
    Option ℝ :=
  if C.trackElev then
    some (calculateElevation i n d totalRoute (C.elevationGain.getD 0)
      C.elevationProfile 0 (C.eU i))
  else none

/-- The point pushed by the legacy loop at index `i` and clock `t`. -/
noncomputable def legacyPoint (C : LegacyCtx) (n : ℕ) (totalRoute : ℝ)
    (c : Coord) (i : ℕ) (d t : ℝ) : GPXPoint :=
  ⟨c.lat, c.lng, legacyElev C n totalRoute i d, some t⟩

/-- The segment speed the legacy loop uses between points `i` and `i+1`:
base speed, optionally ±20% noise, optionally the grade multiplier (only
when noise is on and both the current and previous elevations are known). -/
noncomputable def legacySpeed (C : LegacyCtx) (n : ℕ) (totalRoute : ℝ)
    (c c2 : Coord) (i : ℕ) (d : ℝ) (prevElev : Option ℝ) : ℝ :=
  if C.addNoise then
    let noisy := C.speedKmh * (0.8 + C.sU i * 0.4)
    match legacyElev C n totalRoute i d, prevElev with
    | some e, some pe =>
      noisy * calculateSpeedAdjustmentForElevation (e - pe) (C.tdist c c2)
    | _, _ => noisy
  else C.speedKmh

/-- Milliseconds the legacy loop spends on segment `i → i+1`. -/
noncomputable def legacySegMs (C : LegacyCtx) (n : ℕ) (totalRoute : ℝ)
    (c c2 : Coord) (i : ℕ) (d : ℝ) (prevElev : Option ℝ) : ℝ :=
  C.tdist c c2 / legacySpeed C n totalRoute c c2 i d prevElev * 3600 * 1000

/-- Pause milliseconds the legacy loop may add after segment `i`. -/
noncomputable def legacyPauseMs (C : LegacyCtx) (i : ℕ) : ℝ :=
  if C.pauseDuration > 0 ∧ C.pU i < 0.1 then
    C.pauseDuration * 1000 * (0.5 + C.pA i * 0.5)
  else 0

/-- The main loop of `generateTrackPoints`, recursing over the remaining
coordinates with the running index, clock, cumulative distance and previous
point's elevation as state. -/
noncomputable def gtpGo (C : LegacyCtx) (n : ℕ) (totalRoute : ℝ) :
    List Coord → ℕ → ℝ → ℝ → Option ℝ → List GPXPoint
  | [], _, _, _, _ => []
  | [c], i, t, d, _ => [legacyPoint C n totalRoute c i d t]
  | c :: c2 :: rest, i, t, d, prevElev =>
    legacyPoint C n totalRoute c i d t ::
      gtpGo C n totalRoute (c2 :: rest) (i + 1)
        (t + legacySegMs C n totalRoute c c2 i d prevElev + legacyPauseMs C i)
        (d + C.tdist c c2) (legacyElev C n totalRoute i d)

/-- Embedding of `generateTrackPoints`: legacy path. Fewer than 2 coordinates short-circuit
to bare points stamped with the start time. -/
noncomputable def generateTrackPoints (C : LegacyCtx) (coordinates : List Coord) :
    List GPXPoint :=
  if coordinates.length < 2 then
    coordinates.map fun c =>
      { lat := c.lat, lng := c.lng, elevation := none, time := some C.startTime }
  else
    gtpGo C coordinates.length (calculateCoordinatesDistance C.tdist coordinates)
      coordinates 0 C.startTime 0 none

/-! ### Elevation API adapter -/

structure LatLng where
  lat : ℝ
  lng : ℝ

structure PointWithElevation where
  lat : ℝ
  lng : ℝ
  ele : ℝ

/-- Embedding of `callOpenElevationAPI`: one attempt against the proxy. The network/HTTP
outcome is `resp` (`none` models a transport error, timeout, non-ok status or
a response without a `results` array; `some rs` a parsed results array). A
result-count mismatch is rejected by the source itself. -/
noncomputable def callOpenElevationAPI (points : List LatLng) (resp : Option (List ℝ)) :
    Except Unit (List PointWithElevation) :=
  match resp with
  | none => .error ()
  | some results =>
    if results.length ≠ points.length then .error ()
    else .ok ((points.zip results).map fun pr => ⟨pr.1.lat, pr.1.lng, jsRound pr.2⟩)

/-- Embedding of `generateFallbackElevation`: procedural elevation used when every API
attempt failed; `fU` gives the per-point `Math.random()` draws. The index is
the position within the batch. -/
noncomputable def generateFallbackElevation (points : List LatLng) (fU : ℕ → ℝ) :
    List PointWithElevation :=
  points.enum.map fun ip =>
    let index := ip.1
    let p := ip.2
    let baseElevation : ℝ := 100
    let latVariation := |p.lat| * 2
    let lngVariation := sin (p.lng * π / 180) * 50
    let randomVariation := (fU index - 0.5) * 100
    let routeProgression := (index : ℝ) * 2
    ⟨p.lat, p.lng,
      jsRound (max 0 (baseElevation + latVariation + lngVariation +
        randomVariation + routeProgression))⟩

/-- Embedding of `fetchElevationBatch`: up to three attempts (initial + 2 retries, with
backoff delays that do not affect the value), then the mandatory fallback. -/
noncomputable def fetchElevationBatch (points : List LatLng)
    (resp : ℕ → Option (List ℝ)) (fU : ℕ → ℝ) : List PointWithElevation :=
  match callOpenElevationAPI points (resp 0) with
  | .ok r => r
  | .error _ =>
    match callOpenElevationAPI points (resp 1) with
    | .ok r => r
    | .error _ =>
      match callOpenElevationAPI points (resp 2) with
      | .ok r => r
      | .error _ => generateFallbackElevation points fU

/-- The batching loop of `addElevationToPoints` (batches of 100); `resp b a`
is the response to attempt `a` of batch `b`, `fU b i` the fallback draw for
point `i` of batch `b`. -/
noncomputable def addElevationBatches (resp : ℕ → ℕ → Option (List ℝ))
    (fU : ℕ → ℕ → ℝ) : ℕ → List LatLng → List PointWithElevation
  | _, [] => []
  | batchIdx, p :: rest =>
    fetchElevationBatch ((p :: rest).take 100) (resp batchIdx) (fU batchIdx) ++
      addElevationBatches resp fU (batchIdx + 1) ((p :: rest).drop 100)
termination_by _ points => points.length
decreasing_by
  simp only [List.length_drop, List.length_cons]
  omega

/-- Embedding of `addElevationToPoints`: batch-wise enrichment with elevations. -/
noncomputable def addElevationToPoints (points : List LatLng)
    (resp : ℕ → ℕ → Option (List ℝ)) (fU : ℕ → ℕ → ℝ) : List PointWithElevation :=
  if points.isEmpty then [] else addElevationBatches resp fU 0 points

/-- The slice of the input that the batching loop sends as batch `b`. -/
def batchOf (points : List LatLng) (b : ℕ) : List LatLng :=
  (points.drop (100 * b)).take 100

/-- The enrichment the batching loop produces when every batch resolves to
the local fallback generator. -/
noncomputable def fallbackBatches (fU : ℕ → ℕ → ℝ) : ℕ → List LatLng → List PointWithElevation
  | _, [] => []
  | b, p :: rest =>
    generateFallbackElevation ((p :: rest).take 100) (fU b) ++
      fallbackBatches fU (b + 1) ((p :: rest).drop 100)
termination_by _ points => points.length
decreasing_by
  simp only [List.length_drop, List.length_cons]
  omega

/-! ### Realistic-timing path: `generateRealisticTimestamps` -/

/-- The `TimestampedPoint` record of the source (time in ms). -/
structure TimestampedPoint where
  lat : ℝ
  lng : ℝ
  time : ℝ
  speed : Option ℝ
  elevation : Option ℝ

/-- JS numeric `x || dflt` (`0` and `undefined` are falsy). -/
noncomputable def jsNumOr (x : Option ℝ) (dflt : ℝ) : ℝ :=
  match x with
  | none => dflt
  | some v => if v = 0 then dflt else v

/-- Embedding of `calculateRouteDistance`: total haversine distance of a point list. -/
noncomputable def calculateRouteDistance : List LatLng → ℝ
  | a :: b :: rest => haversineDistance a.lat a.lng b.lat b.lng + calculateRouteDistance (b :: rest)
  | _ => 0

/-- Options and environment of one `generateRealisticTimestamps` call.
`u1 i`/`u2 i` are the Box-Muller draws of segment `i`, `eU i` the simulated
elevation jitter draw of segment `i`, `startU` the starting-elevation draw,
`resp`/`fU` the elevation-API environment. -/
structure RealisticCtx where
  avgSpeedKmh : ℝ
  startTime : ℝ
  samplingRateSeconds : ℝ
  speedVariation : ℝ
  activityType : ActivityType
  addElevation : Bool
  elevationGain : ℝ
  useRealElevation : Bool
  u1 : ℕ → ℝ
  u2 : ℕ → ℝ
  eU : ℕ → ℝ
  startU : ℝ
  resp : ℕ → ℕ → Option (List ℝ)
  fU : ℕ → ℕ → ℝ

/-- Time in ms the realistic loop spends on the segment ending at index `i`:
pacing-modulated, noise-varied speed, then the sampling-rate floor. -/
noncomputable def realisticGapMs (C : RealisticCtx) (n : ℕ)
    (prevPoint currentPoint : LatLng) (i : ℕ) : ℝ :=
  let segmentDistance := haversineDistance prevPoint.lat prevPoint.lng
    currentPoint.lat currentPoint.lng
  let pacing := pacingMultiplier n C.activityType i
  let baseSpeed := C.avgSpeedKmh * pacing
  let speedWithVariation := addSpeedVariation baseSpeed C.speedVariation (C.u1 i) (C.u2 i)
  let segmentTimeMs := segmentDistance / speedWithVariation * 3600 * 1000
  let minTimeMs := C.samplingRateSeconds * 1000
  max segmentTimeMs minTimeMs

/-- Speed attached to the point at index `i` by the realistic loop. -/
noncomputable def realisticSpeed (C : RealisticCtx) (n : ℕ)
    (prevPoint currentPoint : LatLng) (i : ℕ) : ℝ :=
  addSpeedVariation (C.avgSpeedKmh * pacingMultiplier n C.activityType i)
    C.speedVariation (C.u1 i) (C.u2 i)

/-- Elevation decision of the realistic loop at index `i`: real API value
(`pointsWithElevation[i]?.ele || 100`) when real elevation is active,
otherwise the smoothed simulated elevation; returns the attached elevation
and the new cumulative-elevation state. -/
noncomputable def realisticElevStep (C : RealisticCtx) (totalRoute : ℝ)
    (pwe : List PointWithElevation) (i : ℕ) (totalDistance cumulativeElevation : ℝ) :
    Option ℝ × ℝ :=
  if C.addElevation then
    if C.useRealElevation ∧ 0 < pwe.length then
      (some (jsNumOr ((pwe.get? i).map PointWithElevation.ele) 100), cumulativeElevation)
    else
      let e := calculateRealisticElevation cumulativeElevation
        (totalDistance / totalRoute) C.elevationGain totalRoute (C.eU i)
      (some e, e)
  else (none, cumulativeElevation)

/-- The main loop of `generateRealisticTimestamps` (indices `1..n-1`), with
the previous point, running index, clock, cumulative distance and cumulative
elevation as state. -/
noncomputable def grtGo (C : RealisticCtx) (n : ℕ) (totalRoute : ℝ)
    (pwe : List PointWithElevation) :
    LatLng → List LatLng → ℕ → ℝ → ℝ → ℝ → List TimestampedPoint
  | _, [], _, _, _, _ => []
  | prevPoint, currentPoint :: rest, i, t, totalDistance, cumulativeElevation =>
    let segmentDistance := haversineDistance prevPoint.lat prevPoint.lng
      currentPoint.lat currentPoint.lng
    let totalDistance' := totalDistance + segmentDistance
    let t' := t + realisticGapMs C n prevPoint currentPoint i
    let ec := realisticElevStep C totalRoute pwe i totalDistance' cumulativeElevation
    { lat := currentPoint.lat, lng := currentPoint.lng, time := t',
      speed := some (realisticSpeed C n prevPoint currentPoint i),
      elevation := ec.1 } ::
      grtGo C n totalRoute pwe currentPoint rest (i + 1) t' totalDistance' ec.2

/-- Embedding of `generateRealisticTimestamps`. Fewer than 2 points short-circuit; the
first point is emitted at `startTime` with the average speed and, when
elevation is on, a random starting elevation. The real-elevation fetch
happens once, before the loop, and its failures are absorbed (the source
additionally wraps it in a `try`/`catch`, but the fetch itself already
falls back instead of throwing). -/
noncomputable def generateRealisticTimestamps (C : RealisticCtx)
    (points : List LatLng) : List TimestampedPoint :=
  if points.length < 2 then
    points.map fun p =>
      { lat := p.lat, lng := p.lng, time := C.startTime, speed := some C.avgSpeedKmh,
        elevation := if C.addElevation then some 100 else none }
  else
    match points with
    | [] => []
    | p0 :: rest =>
      let pwe : List PointWithElevation :=
        if C.addElevation ∧ C.useRealElevation then
          addElevationToPoints points C.resp C.fU
        else []
      { lat := p0.lat, lng := p0.lng, time := C.startTime, speed := some C.avgSpeedKmh,
        elevation := if C.addElevation then some (getStartingElevation C.startU) else none } ::
        grtGo C points.length (calculateRouteDistance points) pwe p0 rest 1 C.startTime 0 0

/-! ### XML escaping and the serializers -/

def quoteChar : Char := Char.ofNat 34

def aposChar : Char := Char.ofNat 39

def ampEnt : List Char := "&amp;".toList

def ltEnt : List Char := "&lt;".toList

def gtEnt : List Char := "&gt;".toList

def quotEnt : List Char := "&quot;".toList

def aposEnt : List Char := "&apos;".toList

/-- JS `String.prototype.replace` with a global single-character pattern. -/
def repl (c : Char) (r : List Char) : List Char → List Char
  | [] => []
  | x :: xs => (if x = c then r else [x]) ++ repl c r xs

/-- Embedding of `escapeXml`: the source's five chained global replacements, ampersand
first. -/
def escapeXml (text : List Char) : List Char :=
  repl aposChar aposEnt (repl quoteChar quotEnt (repl '>' gtEnt
    (repl '<' ltEnt (repl '&' ampEnt text))))

/-- Per-character specification of `escapeXml`: each of the five XML
metacharacters becomes its entity, all other characters stay. -/
def escChar (c : Char) : List Char :=
  if c = '&' then ampEnt
  else if c = '<' then ltEnt
  else if c = '>' then gtEnt
  else if c = quoteChar then quotEnt
  else if c = aposChar then aposEnt
  else [c]

def escAll : List Char → List Char
  | [] => []
  | c :: s => escChar c ++ escAll s

/-- Checks that a character list holds no raw XML metacharacter: no angle
bracket, quote or apostrophe at all, and every ampersand immediately starts
one of the five entities. -/
def rawFree : List Char → Bool
  | [] => true
  | c :: rest =>
    if c = '<' ∨ c = '>' ∨ c = quoteChar ∨ c = aposChar then false
    else if c = '&' then
      if rest.take 4 = ampEnt.drop 1 ∨ rest.take 3 = ltEnt.drop 1 ∨
          rest.take 3 = gtEnt.drop 1 ∨ rest.take 5 = quotEnt.drop 1 ∨
          rest.take 5 = aposEnt.drop 1 then rawFree rest
      else false
    else rawFree rest

def nameOpen : List Char := "<name>".toList

def nameClose : List Char := "</name>".toList

def descOpen : List Char := "<desc>".toList

def descClose : List Char := "</desc>".toList

def timeOpen : List Char := "<time>".toList

def timeClose : List Char := "</time>".toList

def typeOpen : List Char := "<type>".toList

def typeClose : List Char := "</type>".toList

def eleOpen : List Char := "<ele>".toList

def eleClose : List Char := "</ele>".toList

def nl4 : List Char := "\n    ".toList

def nl6 : List Char := "\n      ".toList

def newlineL : List Char := "\n".toList

def xmlPre : List Char :=
  "<?xml version=\"1.0\" encoding=\"UTF-8\"?>\n<gpx version=\"1.1\" creator=\"GPX Route Creator\" xmlns=\"http://www.topografix.com/GPX/1/1\" xmlns:xsi=\"http://www.w3.org/2001/XMLSchema-instance\" xsi:schemaLocation=\"http://www.topografix.com/GPX/1/1 http://www.topografix.com/GPX/1/1/gpx.xsd\">\n  <metadata>\n    ".toList

def xmlPreR : List Char :=
  "<?xml version=\"1.0\" encoding=\"UTF-8\"?>\n<gpx version=\"1.1\" creator=\"Realistic GPX Generator\" xmlns=\"http://www.topografix.com/GPX/1/1\" xmlns:xsi=\"http://www.w3.org/2001/XMLSchema-instance\" xsi:schemaLocation=\"http://www.topografix.com/GPX/1/1 http://www.topografix.com/GPX/1/1/gpx.xsd\">\n  <metadata>\n    ".toList

def midMeta : List Char := "\n  </metadata>\n  <trk>\n    ".toList

def trksegOpen : List Char := "<trkseg>\n".toList

def xmlPost : List Char := "\n    </trkseg>\n  </trk>\n</gpx>".toList

def trkptOpen1 : List Char := "    <trkpt lat=\"".toList

def trkptMid : List Char := "\" lon=\"".toList

def trkptOpen2 : List Char := "\">\n      ".toList

def trkptEnd : List Char := "\n    </trkpt>".toList

def trkptROpen1 : List Char := "      <trkpt lat=\"".toList

def trkptROpen2 : List Char := "\">\n        ".toList

def trkptREnd : List Char := "\n      </trkpt>".toList

/-- One `<trkpt>` element of `generateGPXXML`; `fmtCoord` models
`toFixed(6)`, `fmtNum` default number printing, `fmtDate` `toISOString`. -/
def trkptXml (fmtCoord fmtNum fmtDate : ℝ → List Char) (point : GPXPoint) : List Char :=
  let elevationTag := match point.elevation with
    | some e => eleOpen ++ fmtNum e ++ eleClose
    | none => []
  let timeTag := match point.time with
    | some t => timeOpen ++ fmtDate t ++ timeClose
    | none => []
  trkptOpen1 ++ fmtCoord point.lat ++ trkptMid ++ fmtCoord point.lng ++ trkptOpen2 ++
    elevationTag ++ nl6 ++ timeTag ++ trkptEnd

/-- Embedding of `generateGPXXML`: the legacy serializer template. -/
def generateGPXXML (name description activityType : List Char) (points : List GPXPoint)
    (startTime : ℝ) (fmtCoord fmtNum fmtDate : ℝ → List Char) : List Char :=
  xmlPre ++ nameOpen ++ escapeXml name ++ nameClose ++ nl4 ++
    descOpen ++ escapeXml description ++ descClose ++ nl4 ++
    timeOpen ++ fmtDate startTime ++ timeClose ++ midMeta ++
    nameOpen ++ escapeXml name ++ nameClose ++ nl4 ++
    typeOpen ++ escapeXml activityType ++ typeClose ++ nl4 ++
    trksegOpen ++ List.intercalate newlineL (points.map (trkptXml fmtCoord fmtNum fmtDate)) ++
    xmlPost

/-- One `<trkpt>` element of `timestampedPointsToGPX`; `fmtCoord7` models
`toFixed(7)`, `fmtEle` `toFixed(1)`. -/
def trkptXmlR (fmtCoord7 fmtEle fmtDate : ℝ → List Char) (point : TimestampedPoint) :
    List Char :=
  let elevationAttr := match point.elevation with
    | some e => nl6 ++ eleOpen ++ fmtEle e ++ eleClose
    | none => []
  trkptROpen1 ++ fmtCoord7 point.lat ++ trkptMid ++ fmtCoord7 point.lng ++ trkptROpen2 ++
    timeOpen ++ fmtDate point.time ++ timeClose ++ elevationAttr ++ trkptREnd

/-- Embedding of `timestampedPointsToGPX`: the realistic-path serializer; the metadata
time is the first point's time, or the current time for an empty list. -/
def timestampedPointsToGPX (points : List TimestampedPoint)
    (name description activityType : List Char)
    (fmtCoord7 fmtEle fmtDate : ℝ → List Char) (now : ℝ) : List Char :=
  let metaTime := match points.head? with
    | some p => p.time
    | none => now
  xmlPreR ++ nameOpen ++ escapeXml name ++ nameClose ++ nl4 ++
    descOpen ++ escapeXml description ++ descClose ++ nl4 ++
    timeOpen ++ fmtDate metaTime ++ timeClose ++ midMeta ++
    nameOpen ++ escapeXml name ++ nameClose ++ nl4 ++
    typeOpen ++ escapeXml activityType ++ typeClose ++ nl4 ++
    trksegOpen ++ List.intercalate newlineL (points.map (trkptXmlR fmtCoord7 fmtEle fmtDate)) ++
    xmlPost

/-! ### The `generateGpx` orchestrator -/

/-- The `GPXGenerationOptions` record (all JS-side defaults made explicit by
the caller). -/
structure GPXGenerationOptions where
  name : List Char
  description : Option (List Char)
  activityType : ActivityType
  coordinates : List Coord
  startTime : ℝ
  averageSpeedKmh : Option ℝ
  averagePaceMinPerKm : Option ℝ
  elevationGain : Option ℝ
  elevationProfile : ElevationProfile
  addNoise : Bool
  pauseDuration : ℝ
  useRealisticTiming : Bool
  samplingRateSeconds : ℝ
  speedVariation : ℝ
  addElevation : Bool
  useRealElevation : Bool

/-- Ambient environment of a `generateGpx` call: the external distance
function, all random draws, the elevation API, and the JS number/date
formatters. -/
structure GenEnv where
  tdist : Coord → Coord → ℝ
  eU : ℕ → ℝ
  sU : ℕ → ℝ
  pU : ℕ → ℝ
  pA : ℕ → ℝ
  u1 : ℕ → ℝ
  u2 : ℕ → ℝ
  reU : ℕ → ℝ
  startU : ℝ
  resp : ℕ → ℕ → Option (List ℝ)
  fU : ℕ → ℕ → ℝ
  now : ℝ
  fmtCoord : ℝ → List Char
  fmtCoord7 : ℝ → List Char
  fmtNum : ℝ → List Char
  fmtEle : ℝ → List Char
  fmtDate : ℝ → List Char

def activityName : ActivityType → List Char
  | .Run => "Run".toList
  | .Bike => "Bike".toList
  | .Walk => "Walk".toList

def activitySuffix : List Char := " activity".toList

/-- JS truthiness of an optional number (`undefined` and `0` are falsy). -/
noncomputable def numTruthy : Option ℝ → Bool
  | none => false
  | some x => decide (x ≠ 0)

/-- JS string `x || dflt` (`undefined` and the empty string are falsy). -/
def jsStrOr (x : Option (List Char)) (dflt : List Char) : List Char :=
  match x with
  | none => dflt
  | some s => if s = [] then dflt else s

/-- Speed resolution of `generateGpx`: `averageSpeedKmh` if truthy, else
`60 / averagePaceMinPerKm` if truthy, else the activity default. -/
noncomputable def resolveSpeedKmh (averageSpeedKmh averagePaceMinPerKm : Option ℝ)
    (activityType : ActivityType) : ℝ :=
  if numTruthy averageSpeedKmh then averageSpeedKmh.getD 0
  else if numTruthy averagePaceMinPerKm then 60 / averagePaceMinPerKm.getD 0
  else DEFAULT_SPEEDS activityType

/-- Embedding of `generateGpx`: resolves the speed, then dispatches to the realistic or
the legacy path and serializes. It is total: no configuration is rejected. -/
noncomputable def generateGpx (E : GenEnv) (O : GPXGenerationOptions) : List Char :=
  let speedKmh := resolveSpeedKmh O.averageSpeedKmh O.averagePaceMinPerKm O.activityType
  let description := jsStrOr O.description (activityName O.activityType ++ activitySuffix)
  if O.useRealisticTiming then
    let points := O.coordinates.map fun c => LatLng.mk c.lat c.lng
    let C : RealisticCtx :=
      { avgSpeedKmh := speedKmh, startTime := O.startTime,
        samplingRateSeconds := O.samplingRateSeconds, speedVariation := O.speedVariation,
        activityType := O.activityType,
        addElevation := O.addElevation || O.elevationGain.isSome,
        elevationGain := O.elevationGain.getD 0,
        useRealElevation := O.useRealElevation,
        u1 := E.u1, u2 := E.u2, eU := E.reU, startU := E.startU,
        resp := E.resp, fU := E.fU }
    timestampedPointsToGPX (generateRealisticTimestamps C points) O.name description
      (activityName O.activityType) E.fmtCoord7 E.fmtEle E.fmtDate E.now
  else
    let L : LegacyCtx :=
      { startTime := O.startTime, speedKmh := speedKmh, elevationGain := O.elevationGain,
        elevationProfile := O.elevationProfile, addNoise := O.addNoise,
        pauseDuration := O.pauseDuration, tdist := E.tdist,
        eU := E.eU, sU := E.sU, pU := E.pU, pA := E.pA }
    generateGPXXML O.name description (activityName O.activityType)
      (generateTrackPoints L O.coordinates) O.startTime E.fmtCoord E.fmtNum E.fmtDate

/-! ### Default elements for safe indexing in statements -/

def d0G : GPXPoint := ⟨0, 0, none, none⟩

def d0TP : TimestampedPoint := ⟨0, 0, 0, none, none⟩

def dC : Coord := ⟨0, 0⟩

/-- Adjacency predicate on a timestamp list: starting from clock `t0`, every
element's time exceeds its predecessor's by at least `floorMs` and the times
never decrease. -/
def gapChain (floorMs : ℝ) : ℝ → List TimestampedPoint → Prop
  | _, [] => True
  | t0, q :: rest => (t0 + floorMs ≤ q.time ∧ t0 ≤ q.time) ∧ gapChain floorMs q.time rest

/-! ### Concrete inputs used by witnesses and counterexamples -/

/-- A legacy call with elevation tracking on (explicit gain 0, flat profile),
noise off, coincident coordinates (so the external distance is 0) and all
random draws 0. -/
noncomputable def c3Ctx : LegacyCtx :=
  { startTime := 0, speedKmh := 10, elevationGain := some 0,
    elevationProfile := .flat, addNoise := false, pauseDuration := 0,
    tdist := fun _ _ => 0, eU := fun _ => 0, sU := fun _ => 0,
    pU := fun _ => 0, pA := fun _ => 0 }

def c3Coords : List Coord := [⟨0, 0⟩, ⟨0, 0⟩, ⟨0, 0⟩, ⟨0, 0⟩, ⟨0, 0⟩]

/-- A legacy call with elevation tracking on (hilly profile, no explicit
gain), noise off, a constant external segment distance of 10 m, and
elevation-noise draws chosen so two consecutive elevations differ by 5 m. -/
noncomputable def c9Ctx : LegacyCtx :=
  { startTime := 0, speedKmh := 10, elevationGain := none,
    elevationProfile := .hilly, addNoise := false, pauseDuration := 0,
    tdist := fun _ _ => 1 / 100, eU := fun i => if i = 1 then 0.95 else 0.5,
    sU := fun _ => 0, pU := fun _ => 0.5, pA := fun _ => 0.5 }

noncomputable def c9Coords : List Coord := [⟨0, 0⟩, ⟨0, 1 / 1000⟩, ⟨0, 2 / 1000⟩]

/-- A legacy call identical to `c9Ctx` except with noise on. -/
noncomputable def c9NoiseCtx : LegacyCtx :=
  { startTime := 0, speedKmh := 10, elevationGain := none,
    elevationProfile := .hilly, addNoise := true, pauseDuration := 0,
    tdist := fun _ _ => 1 / 100, eU := fun i => if i = 1 then 0.95 else 0.5,
    sU := fun _ => 0.5, pU := fun _ => 0.5, pA := fun _ => 0.5 }

/-- An environment with trivial formatters and a failing elevation API. -/
noncomputable def c4Env : GenEnv :=
  { tdist := fun _ _ => 1, eU := fun _ => 0.5, sU := fun _ => 0.5,
    pU := fun _ => 0.5, pA := fun _ => 0.5, u1 := fun _ => 0.5,
    u2 := fun _ => 0.5, reU := fun _ => 0.5, startU := 0.5,
    resp := fun _ _ => none, fU := fun _ _ => 0.5, now := 0,
    fmtCoord := fun _ => [], fmtCoord7 := fun _ => [], fmtNum := fun _ => [],
    fmtEle := fun _ => [], fmtDate := fun _ => [] }

/-- Options with neither a speed nor a pace. -/
def c4Opts : GPXGenerationOptions :=
  { name := "Morning Run".toList, description := none, activityType := .Run,
    coordinates := [⟨0, 0⟩, ⟨1, 1⟩], startTime := 0,
    averageSpeedKmh := none, averagePaceMinPerKm := none,
    elevationGain := none, elevationProfile := .flat, addNoise := true,
    pauseDuration := 0, useRealisticTiming := false, samplingRateSeconds := 4,
    speedVariation := 0.15, addElevation := false, useRealElevation := false }

/-- A realistic-timing call with real elevation requested and an API that
fails on every attempt. -/
noncomputable def c8Ctx : RealisticCtx :=
  { avgSpeedKmh := 10, startTime := 0, samplingRateSeconds := 4,
    speedVariation := 0.15, activityType := .Run, addElevation := true,
    elevationGain := 0, useRealElevation := true, u1 := fun _ => 0.5,
    u2 := fun _ => 0.5, eU := fun _ => 0.5, startU := 0.5,
    resp := fun _ _ => none, fU := fun _ _ => 0.5 }

def c8Points : List LatLng := [⟨0, 0⟩, ⟨0, 1⟩, ⟨1, 1⟩]

/-- A realistic-timing call with real elevation requested where every API
attempt returns a parsed results array of the wrong length (one elevation,
never matching a batch), i.e. the result-count-mismatch failure mode. -/
noncomputable def c8MismatchCtx : RealisticCtx :=
  { avgSpeedKmh := 10, startTime := 0, samplingRateSeconds := 4,
    speedVariation := 0.15, activityType := .Run, addElevation := true,
    elevationGain := 0, useRealElevation := true, u1 := fun _ => 0.5,
    u2 := fun _ => 0.5, eU := fun _ => 0.5, startU := 0.5,
    resp := fun _ _ => some [0], fU := fun _ _ => 0.5 }

/-- A plain realistic-timing call used to witness the timing claim. -/
noncomputable def c2Ctx : RealisticCtx :=
  { avgSpeedKmh := 12, startTime := 0, samplingRateSeconds := 4,
    speedVariation := 0.15, activityType := .Run, addElevation := false,
    elevationGain := 0, useRealElevation := false, u1 := fun _ => 0.5,
    u2 := fun _ => 0.5, eU := fun _ => 0.5, startU := 0.5,
    resp := fun _ _ => none, fU := fun _ _ => 0.5 }

noncomputable def c2Points : List LatLng := [⟨0, 0⟩, ⟨0, 1 / 1000⟩, ⟨0, 2 / 1000⟩]

def testName : List Char := "Test & Run <x>".toList

def testNameEscaped : List Char := "Test &amp; Run &lt;x&gt;".toList

/-! ## Theorems -/

/-! ### Speed clamp (C5) -/

lemma addSpeedVariation_mem (b vf u1 u2 : ℝ) (hb : 0 ≤ b) :
    b * 0.2 ≤ addSpeedVariation b vf u1 u2 ∧ addSpeedVariation b vf u1 u2 ≤ b * 1.8 := by
  unfold addSpeedVariation
  refine ⟨le_max_left _ _, max_le (by nlinarith) (min_le_left _ _)⟩

lemma addSpeedVariation_pos (b vf u1 u2 : ℝ) (hb : 0 < b) :
    0 < addSpeedVariation b vf u1 u2 :=
  lt_of_lt_of_le (by nlinarith) (addSpeedVariation_mem b vf u1 u2 hb.le).1

/-- C5. Speed clamp: for every positive base speed, every variation factor
and every pair of Box-Muller random draws, `addSpeedVariation` returns a
value inside the hard clamp `[0.2 × baseSpeed, 1.8 × baseSpeed]`. -/
theorem claim5_speed_clamp (baseSpeed variationFactor u1 u2 : ℝ)
    (hb : 0 < baseSpeed) :
    baseSpeed * 0.2 ≤ addSpeedVariation baseSpeed variationFactor u1 u2 ∧
    addSpeedVariation baseSpeed variationFactor u1 u2 ≤ baseSpeed * 1.8 :=
  addSpeedVariation_mem baseSpeed variationFactor u1 u2 hb.le

theorem claim5_speed_clamp_witness :
    (0 : ℝ) < 10 ∧
    (10 * 0.2 ≤ addSpeedVariation 10 0.15 0.5 0.5 ∧
      addSpeedVariation 10 0.15 0.5 0.5 ≤ 10 * 1.8) :=
  ⟨by norm_num, claim5_speed_clamp 10 0.15 0.5 0.5 (by norm_num)⟩

/-! ### Grade-adjustment policy table (C6) -/

/-- C6. Grade-adjustment policy table: with
`gradient = (elevationChangeMeters/1000)/segmentDistanceKm`, the multiplier
is 0.6 for gradient > 0.05, 0.8 for gradient in (0.02, 0.05], 1.1 for
gradient in [-0.05, -0.02), 1.2 for gradient < -0.05 and 1.0 otherwise; a
zero-distance segment short-circuits to 1.0. -/
theorem claim6_grade_table (elevationChange d : ℝ) :
    calculateSpeedAdjustmentForElevation elevationChange 0 = 1 ∧
    (d ≠ 0 →
      ((elevationChange / 1000) / d > 0.05 →
        calculateSpeedAdjustmentForElevation elevationChange d = 0.6) ∧
      (0.02 < (elevationChange / 1000) / d ∧ (elevationChange / 1000) / d ≤ 0.05 →
        calculateSpeedAdjustmentForElevation elevationChange d = 0.8) ∧
      (-0.05 ≤ (elevationChange / 1000) / d ∧ (elevationChange / 1000) / d < -0.02 →
        calculateSpeedAdjustmentForElevation elevationChange d = 1.1) ∧
      ((elevationChange / 1000) / d < -0.05 →
        calculateSpeedAdjustmentForElevation elevationChange d = 1.2) ∧
      (-0.02 ≤ (elevationChange / 1000) / d ∧ (elevationChange / 1000) / d ≤ 0.02 →
        calculateSpeedAdjustmentForElevation elevationChange d = 1)) := by
  constructor
  · simp [calculateSpeedAdjustmentForElevation]
  · intro hd
    refine ⟨fun h => ?_, fun h => ?_, fun h => ?_, fun h => ?_, fun h => ?_⟩ <;>
      · unfold calculateSpeedAdjustmentForElevation
        rw [if_neg hd]
        dsimp only
        split_ifs <;> first | rfl | (exfalso; first | linarith [h.1, h.2] | linarith)

theorem claim6_grade_table_witness :
    ((100 : ℝ) / 1000 / 1 > 0.05 ∧ (1 : ℝ) ≠ 0) ∧
    calculateSpeedAdjustmentForElevation 100 1 = 0.6 :=
  ⟨⟨by norm_num, by norm_num⟩,
    ((claim6_grade_table 100 1).2 (by norm_num)).1 (by norm_num)⟩

/-! ### Pacing-curve shape (C7) -/

lemma pacingCurve_getD (n : ℕ) (a : ActivityType) (i : ℕ) (h : i < n) :
    (generatePacingCurve n a).getD i 0 = pacingMultiplier n a i := by
  simp [generatePacingCurve, List.getD_eq_getElem?_getD, List.getElem?_map,
    List.getElem?_range h]

/-- C7. Pacing-curve shape: the curve has one multiplier per point; for Run
with 11 points the first value is the warmup floor 0.85 and the last the
fatigue floor 0.92; and every value whose progress lies in the peak phase
`[0.2, 0.7)` is within 0.03 of the Run peak 1.08. -/
theorem claim7_pacing_shape :
    (∀ (pointCount : ℕ) (activityType : ActivityType),
      (generatePacingCurve pointCount activityType).length = pointCount) ∧
    (generatePacingCurve 11 ActivityType.Run).getD 0 0 = 0.85 ∧
    (generatePacingCurve 11 ActivityType.Run).getD 10 0 = 0.92 ∧
    ∀ i : ℕ, i < 11 → 0.2 ≤ (i : ℝ) / 10 → (i : ℝ) / 10 < 0.7 →
      |(generatePacingCurve 11 ActivityType.Run).getD i 0 - 1.08| ≤ 0.03 := by
  refine ⟨fun n a => by simp [generatePacingCurve], ?_, ?_, ?_⟩
  · rw [pacingCurve_getD 11 _ 0 (by norm_num)]
    norm_num [pacingMultiplier, pacingPatterns]
  · rw [pacingCurve_getD 11 _ 10 (by norm_num)]
    norm_num [pacingMultiplier, pacingPatterns]
  · intro i hi h02 h07
    rw [pacingCurve_getD 11 _ i hi]
    have h10 : ((11 : ℕ) : ℝ) - 1 = 10 := by norm_num
    simp only [pacingMultiplier, pacingPatterns, h10]
    rw [if_neg (not_lt.mpr h02), if_pos h07]
    have hs1 := Real.neg_one_le_sin (((i : ℝ) / 10 - 0.2) / 0.5 * π * 2)
    have hs2 := Real.sin_le_one (((i : ℝ) / 10 - 0.2) / 0.5 * π * 2)
    rw [abs_le]
    constructor <;> nlinarith

theorem claim7_pacing_shape_witness :
    ((3 : ℕ) < 11 ∧ (0.2 : ℝ) ≤ (3 : ℕ) / 10 ∧ ((3 : ℕ) : ℝ) / 10 < 0.7) ∧
    |(generatePacingCurve 11 ActivityType.Run).getD 3 0 - 1.08| ≤ 0.03 :=
  ⟨⟨by norm_num, by norm_num, by norm_num⟩,
    claim7_pacing_shape.2.2.2 3 (by norm_num) (by norm_num) (by norm_num)⟩

/-! ### Point-count preservation (C1) -/

lemma gtpGo_length (C : LegacyCtx) (n : ℕ) (tr : ℝ) (rest : List Coord) :
    ∀ (c : Coord) (i : ℕ) (t d : ℝ) (pe : Option ℝ),
      (gtpGo C n tr (c :: rest) i t d pe).length = rest.length + 1 := by
  induction rest with
  | nil => intro c i t d pe; simp [gtpGo]
  | cons c2 rest ih => intro c i t d pe; simp [gtpGo, ih]

lemma generateTrackPoints_length (C : LegacyCtx) (coords : List Coord) :
    (generateTrackPoints C coords).length = coords.length := by
  unfold generateTrackPoints
  split
  · simp
  · match coords with
    | [] => simp [gtpGo]
    | c :: rest => simp [gtpGo_length]

lemma grtGo_length (C : RealisticCtx) (n : ℕ) (tr : ℝ) (pwe : List PointWithElevation)
    (rest : List LatLng) :
    ∀ (prev : LatLng) (i : ℕ) (t d ce : ℝ),
      (grtGo C n tr pwe prev rest i t d ce).length = rest.length := by
  induction rest with
  | nil => intro prev i t d ce; simp [grtGo]
  | cons c rest ih => intro prev i t d ce; simp [grtGo, ih]

lemma generateRealisticTimestamps_length (C : RealisticCtx) (points : List LatLng) :
    (generateRealisticTimestamps C points).length = points.length := by
  unfold generateRealisticTimestamps
  split
  · simp
  · match points with
    | [] => simp
    | p0 :: rest => simp [grtGo_length]

/-- C1. Point-count preservation: both generation paths return exactly one
output point per input coordinate, for every input list (including the
degenerate 0- and 1-coordinate cases), every option set and every
environment. -/
theorem claim1_point_count :
    (∀ (C : LegacyCtx) (coordinates : List Coord),
      (generateTrackPoints C coordinates).length = coordinates.length) ∧
    ∀ (C : RealisticCtx) (points : List LatLng),
      (generateRealisticTimestamps C points).length = points.length :=
  ⟨generateTrackPoints_length, generateRealisticTimestamps_length⟩

/-! ### Mandatory elevation fallback (C8) -/

lemma fetchElevationBatch_error_fallback (points : List LatLng)
    (resp : ℕ → Option (List ℝ)) (fU : ℕ → ℝ)
    (hfail : ∀ k, callOpenElevationAPI points (resp k) = .error ()) :
    fetchElevationBatch points resp fU = generateFallbackElevation points fU := by
  simp [fetchElevationBatch, hfail]

lemma addElevationBatches_all_fail (resp : ℕ → ℕ → Option (List ℝ)) (fU : ℕ → ℕ → ℝ) :
    ∀ (n : ℕ) (pts : List LatLng), pts.length ≤ n → ∀ b : ℕ,
      (∀ j k, callOpenElevationAPI (batchOf pts j) (resp (b + j) k) = .error ()) →
      addElevationBatches resp fU b pts = fallbackBatches fU b pts := by
  intro n
  induction n with
  | zero =>
    intro pts h b hf
    have hnil : pts = [] := List.eq_nil_of_length_eq_zero (by omega)
    subst hnil
    simp [addElevationBatches, fallbackBatches]
  | succ n ih =>
    intro pts h b hf
    match pts with
    | [] => simp [addElevationBatches, fallbackBatches]
    | p :: rest =>
      have h' : (p :: rest).length ≤ n + 1 := h
      simp only [List.length_cons] at h'
      have h0 : ∀ k, callOpenElevationAPI ((p :: rest).take 100) (resp b k) = .error () := by
        intro k
        have hb := hf 0 k
        simpa [batchOf] using hb
      rw [addElevationBatches, fallbackBatches,
        fetchElevationBatch_error_fallback _ _ _ h0]
      congr 1
      apply ih ((p :: rest).drop 100)
        (by simp only [List.length_drop, List.length_cons]; omega) (b + 1)
      intro j k
      have hb := hf (j + 1) k
      rw [show b + 1 + j = b + (j + 1) from by omega]
      unfold batchOf at hb ⊢
      rw [List.drop_drop, show 100 + 100 * j = 100 * (j + 1) from by ring]
      exact hb

lemma addElevationToPoints_all_fail (points : List LatLng)
    (resp : ℕ → ℕ → Option (List ℝ)) (fU : ℕ → ℕ → ℝ)
    (hfail : ∀ b k, callOpenElevationAPI (batchOf points b) (resp b k) = .error ()) :
    addElevationToPoints points resp fU = fallbackBatches fU 0 points := by
  unfold addElevationToPoints
  split
  · next h =>
    rw [List.isEmpty_iff.mp h]
    simp [fallbackBatches]
  · apply addElevationBatches_all_fail resp fU points.length points le_rfl 0
    intro j k
    rw [show (0 : ℕ) + j = j from by omega]
    exact hfail j k

lemma generateFallbackElevation_length (points : List LatLng) (fU : ℕ → ℝ) :
    (generateFallbackElevation points fU).length = points.length := by
  simp [generateFallbackElevation]

lemma callOpenElevationAPI_ok_length (points : List LatLng) (r : Option (List ℝ))
    (l : List PointWithElevation) (h : callOpenElevationAPI points r = .ok l) :
    l.length = points.length := by
  match r with
  | none => simp [callOpenElevationAPI] at h
  | some results =>
    rw [callOpenElevationAPI] at h
    by_cases hlen : results.length ≠ points.length
    · rw [if_pos hlen] at h
      cases h
    · rw [if_neg hlen] at h
      cases h
      push_neg at hlen
      simp [List.length_zip, hlen]

lemma fetchElevationBatch_length (points : List LatLng)
    (resp : ℕ → Option (List ℝ)) (fU : ℕ → ℝ) :
    (fetchElevationBatch points resp fU).length = points.length := by
  unfold fetchElevationBatch
  split
  · next h => exact callOpenElevationAPI_ok_length points _ _ h
  · split
    · next h => exact callOpenElevationAPI_ok_length points _ _ h
    · split
      · next h => exact callOpenElevationAPI_ok_length points _ _ h
      · exact generateFallbackElevation_length points fU

lemma addElevationBatches_length (resp : ℕ → ℕ → Option (List ℝ)) (fU : ℕ → ℕ → ℝ) :
    ∀ (points : List LatLng) (b : ℕ),
      (addElevationBatches resp fU b points).length = points.length := by
  have H : ∀ (n : ℕ) (points : List LatLng), points.length ≤ n → ∀ b,
      (addElevationBatches resp fU b points).length = points.length := by
    intro n
    induction n with
    | zero =>
      intro points h b
      have hnil : points = [] := List.eq_nil_of_length_eq_zero (by omega)
      subst hnil
      simp [addElevationBatches]
    | succ n ih =>
      intro points h b
      match points with
      | [] => simp [addElevationBatches]
      | p :: rest =>
        have h' : (p :: rest).length ≤ n + 1 := h
        simp only [List.length_cons] at h'
        have hdrop : ((p :: rest).drop 100).length ≤ n := by
          simp only [List.length_drop, List.length_cons]
          omega
        rw [addElevationBatches]
        rw [List.length_append, fetchElevationBatch_length,
          ih ((p :: rest).drop 100) hdrop (b + 1)]
        simp only [List.length_take, List.length_drop, List.length_cons]
        omega
  exact fun points b => H points.length points le_rfl b

lemma addElevationToPoints_length (points : List LatLng)
    (resp : ℕ → ℕ → Option (List ℝ)) (fU : ℕ → ℕ → ℝ) :
    (addElevationToPoints points resp fU).length = points.length := by
  unfold addElevationToPoints
  split
  · next h => simp [List.isEmpty_iff.mp h]
  · exact addElevationBatches_length resp fU points 0

/-- C8. Mandatory elevation fallback: suppose every attempt of every batch is
rejected by `callOpenElevationAPI` — which happens exactly when the response
is missing or malformed (`resp … = none`, covering rejection, timeout and
transport errors) or is a parsed results array whose length mismatches the
batch (`some rs` with `rs.length ≠ batch.length`), in either case including
after all retries are exhausted. Then a realistic-timing call with real
elevation enabled still returns one point per input coordinate, the
enrichment it consumes is exactly the local fallback enrichment (one
fallback elevation per input point), and each batch fetch resolves to the
fallback generator instead of propagating an error. -/
theorem claim8_elevation_fallback (C : RealisticCtx) (points : List LatLng)
    (hAdd : C.addElevation = true) (hReal : C.useRealElevation = true)
    (hfail : ∀ b k, callOpenElevationAPI (batchOf points b) (C.resp b k) = .error ()) :
    (generateRealisticTimestamps C points).length = points.length ∧
    (addElevationToPoints points C.resp C.fU).length = points.length ∧
    addElevationToPoints points C.resp C.fU = fallbackBatches C.fU 0 points ∧
    ∀ (batch : List LatLng) (b : ℕ),
      (∀ k, callOpenElevationAPI batch (C.resp b k) = .error ()) →
      fetchElevationBatch batch (C.resp b) (C.fU b) =
        generateFallbackElevation batch (C.fU b) :=
  ⟨generateRealisticTimestamps_length C points,
    addElevationToPoints_length points C.resp C.fU,
    addElevationToPoints_all_fail points C.resp C.fU hfail,
    fun batch b hb => fetchElevationBatch_error_fallback batch _ _ hb⟩

lemma c8MismatchCtx_fails :
    ∀ b k, callOpenElevationAPI (batchOf c8Points b) (c8MismatchCtx.resp b k) =
      .error () := by
  intro b k
  match b with
  | 0 => rfl
  | b + 1 =>
    have hnil : batchOf c8Points (b + 1) = [] := by
      unfold batchOf c8Points
      rw [List.drop_eq_nil_of_le (by simp only [List.length_cons, List.length_nil]; omega)]
      rfl
    rw [hnil]
    rfl

theorem claim8_elevation_fallback_witness :
    (c8MismatchCtx.addElevation = true ∧ c8MismatchCtx.useRealElevation = true ∧
      ∀ b k, callOpenElevationAPI (batchOf c8Points b) (c8MismatchCtx.resp b k) =
        .error ()) ∧
    (generateRealisticTimestamps c8MismatchCtx c8Points).length = c8Points.length ∧
    addElevationToPoints c8Points c8MismatchCtx.resp c8MismatchCtx.fU =
      fallbackBatches c8MismatchCtx.fU 0 c8Points :=
  ⟨⟨rfl, rfl, c8MismatchCtx_fails⟩,
    (claim8_elevation_fallback c8MismatchCtx c8Points rfl rfl c8MismatchCtx_fails).1,
    (claim8_elevation_fallback c8MismatchCtx c8Points rfl rfl c8MismatchCtx_fails).2.2.1⟩

/-! ### Monotonic time with sampling floor (C2) -/

lemma atan2_nonneg (y x : ℝ) (hy : 0 ≤ y) (hx : 0 ≤ x) : 0 ≤ atan2 y x := by
  unfold atan2
  split_ifs with h1 h2 h3 h4 h5 <;>
    first
      | (have h := Real.arctan_strictMono.monotone (div_nonneg hy h1.le)
         rwa [Real.arctan_zero] at h)
      | linarith [Real.pi_pos]
      | exact le_refl 0

lemma haversineDistance_nonneg (lat1 lng1 lat2 lng2 : ℝ) :
    0 ≤ haversineDistance lat1 lng1 lat2 lng2 := by
  have key : ∀ A B : ℝ, 0 ≤ (6371 : ℝ) * (2 * atan2 (Real.sqrt A) (Real.sqrt B)) := by
    intro A B
    have h := atan2_nonneg (Real.sqrt A) (Real.sqrt B)
      (Real.sqrt_nonneg _) (Real.sqrt_nonneg _)
    exact mul_nonneg (by norm_num) (mul_nonneg (by norm_num) h)
  unfold haversineDistance
  dsimp only
  exact key _ _

lemma pacing_branch_pos (w pk f p : ℝ) (hw : 0 < w) (hw1 : w ≤ 1)
    (hpk : 0.03 < pk) (hf : 0 < f) (hfpk : f ≤ pk) (hp0 : 0 ≤ p) (hp1 : p ≤ 1) :
    0 < (if p < 0.2 then w + (1 - w) * (p / 0.2)
      else if p < 0.7 then pk + Real.sin ((p - 0.2) / 0.5 * π * 2) * 0.03
      else pk - (pk - f) * ((p - 0.7) / 0.3)) := by
  split_ifs with h1 h2
  · have h : 0 ≤ p / 0.2 := by positivity
    nlinarith
  · nlinarith [Real.neg_one_le_sin ((p - 0.2) / 0.5 * π * 2)]
  · have h : (p - 0.7) / 0.3 ≤ 1 := by
      rw [div_le_one (by norm_num)]
      linarith
    nlinarith

lemma pacingMultiplier_pos (n : ℕ) (a : ActivityType) (i : ℕ)
    (hn : 2 ≤ n) (hi : i < n) : 0 < pacingMultiplier n a i := by
  have hn' : (2 : ℝ) ≤ (n : ℝ) := by exact_mod_cast hn
  have hden : (0 : ℝ) < (n : ℝ) - 1 := by linarith
  have hp0 : 0 ≤ (i : ℝ) / ((n : ℝ) - 1) := div_nonneg (Nat.cast_nonneg i) hden.le
  have hp1 : (i : ℝ) / ((n : ℝ) - 1) ≤ 1 := by
    rw [div_le_one hden]
    have : (i : ℝ) + 1 ≤ (n : ℝ) := by exact_mod_cast hi
    linarith
  cases a <;>
    · simp only [pacingMultiplier, pacingPatterns]
      exact pacing_branch_pos _ _ _ _ (by norm_num) (by norm_num) (by norm_num)
        (by norm_num) (by norm_num) hp0 hp1

lemma realisticGapMs_bounds (C : RealisticCtx) (n : ℕ) (prev cur : LatLng) (i : ℕ)
    (hn : 2 ≤ n) (hi : i < n) (hs : 0 < C.avgSpeedKmh) :
    C.samplingRateSeconds * 1000 ≤ realisticGapMs C n prev cur i ∧
    0 ≤ realisticGapMs C n prev cur i := by
  have hbase : 0 < C.avgSpeedKmh * pacingMultiplier n C.activityType i :=
    mul_pos hs (pacingMultiplier_pos n C.activityType i hn hi)
  have hsv : 0 < addSpeedVariation (C.avgSpeedKmh * pacingMultiplier n C.activityType i)
      C.speedVariation (C.u1 i) (C.u2 i) :=
    addSpeedVariation_pos _ _ _ _ hbase
  have hseg : 0 ≤ haversineDistance prev.lat prev.lng cur.lat cur.lng /
      addSpeedVariation (C.avgSpeedKmh * pacingMultiplier n C.activityType i)
        C.speedVariation (C.u1 i) (C.u2 i) * 3600 * 1000 := by
    have := haversineDistance_nonneg prev.lat prev.lng cur.lat cur.lng
    positivity
  unfold realisticGapMs
  dsimp only
  exact ⟨le_max_right _ _, le_trans hseg (le_max_left _ _)⟩

lemma grtGo_chain (C : RealisticCtx) (n : ℕ) (tr : ℝ) (pwe : List PointWithElevation)
    (hn : 2 ≤ n) (hs : 0 < C.avgSpeedKmh) (rest : List LatLng) :
    ∀ (prev : LatLng) (i : ℕ) (t d ce : ℝ), i + rest.length ≤ n →
      gapChain (C.samplingRateSeconds * 1000) t (grtGo C n tr pwe prev rest i t d ce) := by
  induction rest with
  | nil => intro prev i t d ce _; simp [grtGo, gapChain]
  | cons c rest ih =>
    intro prev i t d ce hle
    have hi : i < n := by simp only [List.length_cons] at hle; omega
    have hg := realisticGapMs_bounds C n prev c i hn hi hs
    simp only [grtGo, gapChain]
    refine ⟨⟨by linarith [hg.1], by linarith [hg.2]⟩, ?_⟩
    exact ih c (i + 1) _ _ _ (by simp only [List.length_cons] at hle; omega)

lemma gapChain_getD (f : ℝ) (l : List TimestampedPoint) :
    ∀ t0 : ℝ, gapChain f t0 l →
      (l ≠ [] → t0 + f ≤ (l.getD 0 d0TP).time ∧ t0 ≤ (l.getD 0 d0TP).time) ∧
      ∀ j, j + 1 < l.length →
        (l.getD j d0TP).time + f ≤ (l.getD (j + 1) d0TP).time ∧
        (l.getD j d0TP).time ≤ (l.getD (j + 1) d0TP).time := by
  induction l with
  | nil => intro t0 _; exact ⟨fun h => absurd rfl h, fun j hj => by simp at hj⟩
  | cons q rest ih =>
    intro t0 hch
    obtain ⟨⟨hq1, hq2⟩, hrest⟩ := hch
    refine ⟨fun _ => by simpa using ⟨hq1, hq2⟩, ?_⟩
    intro j hj
    match j with
    | 0 =>
      have hne : rest ≠ [] := by
        simp only [List.length_cons] at hj
        exact List.ne_nil_of_length_pos (by omega)
      have := ((ih q.time hrest).1 hne)
      simpa using this
    | j + 1 =>
      have hj' : j + 1 < rest.length := by simpa using hj
      have := (ih q.time hrest).2 j hj'
      simpa using this

/-- C2. Monotonic time with sampling floor: for every list of at least two
points, every positive average speed and every sampling rate, the realistic
path emits its first point exactly at `startTime`, and each later timestamp
exceeds its predecessor by at least `samplingRateSeconds × 1000` ms (so the
sequence is non-decreasing). -/
theorem claim2_monotonic_time (C : RealisticCtx) (points : List LatLng)
    (h2 : 2 ≤ points.length) (hs : 0 < C.avgSpeedKmh) :
    ((generateRealisticTimestamps C points).getD 0 d0TP).time = C.startTime ∧
    ∀ j, j + 1 < (generateRealisticTimestamps C points).length →
      ((generateRealisticTimestamps C points).getD j d0TP).time +
          C.samplingRateSeconds * 1000 ≤
        ((generateRealisticTimestamps C points).getD (j + 1) d0TP).time ∧
      ((generateRealisticTimestamps C points).getD j d0TP).time ≤
        ((generateRealisticTimestamps C points).getD (j + 1) d0TP).time := by
  match points, h2 with
  | p0 :: p1 :: rest, _ =>
    have hlen : ¬((p0 :: p1 :: rest).length < 2) := by simp
    rw [generateRealisticTimestamps, if_neg hlen]
    dsimp only
    set tail := grtGo C (p0 :: p1 :: rest).length
      (calculateRouteDistance (p0 :: p1 :: rest))
      (if C.addElevation ∧ C.useRealElevation then
        addElevationToPoints (p0 :: p1 :: rest) C.resp C.fU
      else []) p0 (p1 :: rest) 1 C.startTime 0 0 with htail
    have hch : gapChain (C.samplingRateSeconds * 1000) C.startTime tail := by
      rw [htail]
      exact grtGo_chain C _ _ _ (by simp only [List.length_cons]; omega) hs
        (p1 :: rest) p0 1 C.startTime 0 0 (by simp only [List.length_cons]; omega)
    have hgd := gapChain_getD (C.samplingRateSeconds * 1000) tail C.startTime hch
    have htlen : tail.length = rest.length + 1 := by rw [htail]; simp [grtGo_length]
    refine ⟨by simp, ?_⟩
    intro j hj
    match j with
    | 0 =>
      have hne : tail ≠ [] := List.ne_nil_of_length_pos (by omega)
      have h := hgd.1 hne
      simpa using h
    | j + 1 =>
      have hj' : j + 1 < tail.length := by
        simp only [List.length_cons] at hj
        omega
      have h := hgd.2 j hj'
      simpa using h

theorem claim2_monotonic_time_witness :
    (2 ≤ c2Points.length ∧ 0 < c2Ctx.avgSpeedKmh) ∧
    (((generateRealisticTimestamps c2Ctx c2Points).getD 0 d0TP).time = c2Ctx.startTime ∧
      ∀ j, j + 1 < (generateRealisticTimestamps c2Ctx c2Points).length →
        ((generateRealisticTimestamps c2Ctx c2Points).getD j d0TP).time +
            c2Ctx.samplingRateSeconds * 1000 ≤
          ((generateRealisticTimestamps c2Ctx c2Points).getD (j + 1) d0TP).time ∧
        ((generateRealisticTimestamps c2Ctx c2Points).getD j d0TP).time ≤
          ((generateRealisticTimestamps c2Ctx c2Points).getD (j + 1) d0TP).time) :=
  ⟨⟨by simp [c2Points], by norm_num [c2Ctx]⟩,
    claim2_monotonic_time c2Ctx c2Points (by simp [c2Points]) (by norm_num [c2Ctx])⟩

/-! ### Elevation floor (C3) -/

lemma jsRound_nonneg (x : ℝ) (hx : 0 ≤ x) : 0 ≤ jsRound x := by
  unfold jsRound
  have h : (0 : ℤ) ≤ ⌊x + 1 / 2⌋ := Int.le_floor.mpr (by push_cast; linarith)
  exact_mod_cast h

lemma sin_three_pi_div_two : Real.sin (π + π / 2) = -1 := by
  rw [Real.sin_add, Real.sin_pi, Real.cos_pi, Real.sin_pi_div_two, Real.cos_pi_div_two]
  ring

/-- The legacy simulated elevation is negative at point 3 of 5 on a flat
profile with zero gain when the noise draw is 0. -/
lemma calculateElevation_neg :
    calculateElevation 3 5 0 0 0 ElevationProfile.flat 0 0 = -15 := by
  have harg : ((3 : ℕ) : ℝ) / (((5 : ℕ) : ℝ) - 1) * π * 2 = π + π / 2 := by
    push_cast
    ring
  have hsin : Real.sin (((3 : ℕ) : ℝ) / (((5 : ℕ) : ℝ) - 1) * π * 2) = -1 := by
    rw [harg, sin_three_pi_div_two]
  have hval : (0 : ℝ) + 0 * (((3 : ℕ) : ℝ) / (((5 : ℕ) : ℝ) - 1)) +
      ((ELEVATION_PROFILES ElevationProfile.flat).min +
        ((ELEVATION_PROFILES ElevationProfile.flat).max -
          (ELEVATION_PROFILES ElevationProfile.flat).min) *
          Real.sin (((3 : ℕ) : ℝ) / (((5 : ℕ) : ℝ) - 1) * π * 2)) +
      ((0 : ℝ) - 0.5) * 10 = -15 := by
    rw [hsin]
    norm_num [ELEVATION_PROFILES]
  unfold calculateElevation
  dsimp only
  rw [hval]
  unfold jsRound
  norm_num

/-- C3 counterexample: a legacy generation call (flat profile, explicit
elevation gain 0, coincident coordinates, all random draws 0) whose fourth
emitted point carries the negative elevation −15 — the legacy
`calculateElevation` has no `max(0, ·)` floor. -/
theorem claim3_counterexample :
    ((generateTrackPoints c3Ctx c3Coords).getD 3 d0G).elevation = some (-15) ∧
    ((-15 : ℝ) < 0) := by
  constructor
  · have hlen : ¬(c3Coords.length < 2) := by simp [c3Coords]
    rw [generateTrackPoints, if_neg hlen]
    have htrack : c3Ctx.trackElev := by
      simp [LegacyCtx.trackElev, c3Ctx]
    have hn : c3Coords.length = 5 := by simp [c3Coords]
    simp only [c3Coords, gtpGo, List.getD_cons_succ, List.getD_cons_zero,
      legacyPoint, hn]
    rw [legacyElev, if_pos htrack]
    simp only [c3Ctx, calculateCoordinatesDistance, Option.getD_some]
    norm_num
    exact calculateElevation_neg
  · norm_num

/-- C3 amended. Elevation floor on the realistic path and the fallback
provider: the smoothed `calculateRealisticElevation` is always ≥ 0, the
randomized starting elevation is ≥ 0 for every draw in `[0,1)`, and every
fallback elevation is ≥ 0; the legacy `calculateElevation` is exempt, since
it applies no floor (see the counterexample). -/
theorem claim3_amended_floor :
    (∀ currentElevation progressRate totalElevationGain totalDistance u,
      0 ≤ calculateRealisticElevation currentElevation progressRate
        totalElevationGain totalDistance u) ∧
    (∀ u, 0 ≤ u → 0 ≤ getStartingElevation u) ∧
    (∀ (points : List LatLng) (fU : ℕ → ℝ) (q : PointWithElevation),
      q ∈ generateFallbackElevation points fU → 0 ≤ q.ele) := by
  refine ⟨fun _ _ _ _ _ => le_max_left 0 _, fun u hu => ?_, ?_⟩
  · unfold getStartingElevation
    nlinarith
  · intro points fU q hq
    unfold generateFallbackElevation at hq
    obtain ⟨ip, _, rfl⟩ := List.mem_map.mp hq
    exact jsRound_nonneg _ (le_max_left 0 _)

theorem claim3_amended_floor_witness :
    (0 : ℝ) ≤ 0.5 ∧ 0 ≤ getStartingElevation 0.5 :=
  ⟨by norm_num, claim3_amended_floor.2.1 0.5 (by norm_num)⟩

/-! ### Invalid-configuration rejection (C4) -/

lemma resolveSpeedKmh_none (a : ActivityType) :
    resolveSpeedKmh none none a = DEFAULT_SPEEDS a := by
  simp [resolveSpeedKmh, numTruthy]

lemma DEFAULT_SPEEDS_ne_zero (a : ActivityType) : DEFAULT_SPEEDS a ≠ 0 := by
  cases a <;> norm_num [DEFAULT_SPEEDS]

lemma resolveSpeedKmh_some_default (p : Option ℝ) (a : ActivityType) :
    resolveSpeedKmh (some (DEFAULT_SPEEDS a)) p a = DEFAULT_SPEEDS a := by
  simp [resolveSpeedKmh, numTruthy, DEFAULT_SPEEDS_ne_zero a]

/-- C4 counterexample: a `generateGpx` call in which neither a speed nor a
pace is resolvable is not rejected — the engine silently resolves the Run
default 10 km/h and produces exactly the document it would produce had
10 km/h been requested explicitly. -/
theorem claim4_counterexample :
    resolveSpeedKmh none none ActivityType.Run = 10 ∧
    generateGpx c4Env c4Opts =
      generateGpx c4Env { c4Opts with averageSpeedKmh := some 10 } := by
  constructor
  · rw [resolveSpeedKmh_none]
    norm_num [DEFAULT_SPEEDS]
  · have h1 : resolveSpeedKmh c4Opts.averageSpeedKmh c4Opts.averagePaceMinPerKm
        c4Opts.activityType = 10 := by
      show resolveSpeedKmh none none ActivityType.Run = 10
      rw [resolveSpeedKmh_none]
      norm_num [DEFAULT_SPEEDS]
    have h2 : resolveSpeedKmh (some 10) c4Opts.averagePaceMinPerKm
        c4Opts.activityType = 10 := by
      show resolveSpeedKmh (some 10) none ActivityType.Run = 10
      norm_num [resolveSpeedKmh, numTruthy]
    unfold generateGpx
    simp only [h1, h2]

/-- C4 amended. When neither `averageSpeedKmh` nor `averagePaceMinPerKm` is
resolvable, `generateGpx` does not reject the call: it silently falls back
to the activity's default speed (Run 10, Bike 25, Walk 5 km/h) and behaves
exactly as if that default had been requested explicitly. -/
theorem claim4_amended_default_speed :
    (∀ a, resolveSpeedKmh none none a = DEFAULT_SPEEDS a) ∧
    ∀ (E : GenEnv) (O : GPXGenerationOptions),
      O.averageSpeedKmh = none → O.averagePaceMinPerKm = none →
      generateGpx E O =
        generateGpx E { O with averageSpeedKmh := some (DEFAULT_SPEEDS O.activityType) } := by
  refine ⟨resolveSpeedKmh_none, ?_⟩
  intro E O h1 h2
  have hL : resolveSpeedKmh O.averageSpeedKmh O.averagePaceMinPerKm O.activityType =
      DEFAULT_SPEEDS O.activityType := by
    rw [h1, h2, resolveSpeedKmh_none]
  have hR : resolveSpeedKmh (some (DEFAULT_SPEEDS O.activityType)) O.averagePaceMinPerKm
      O.activityType = DEFAULT_SPEEDS O.activityType :=
    resolveSpeedKmh_some_default _ _
  unfold generateGpx
  simp only [hL, hR]

theorem claim4_amended_default_speed_witness :
    (c4Opts.averageSpeedKmh = none ∧ c4Opts.averagePaceMinPerKm = none) ∧
    generateGpx c4Env c4Opts =
      generateGpx c4Env
        { c4Opts with averageSpeedKmh := some (DEFAULT_SPEEDS c4Opts.activityType) } :=
  ⟨⟨rfl, rfl⟩, claim4_amended_default_speed.2 c4Env c4Opts rfl rfl⟩

/-! ### Legacy-path grade application (C9) -/

lemma gtpGo_head_time (C : LegacyCtx) (n : ℕ) (tr : ℝ) (c : Coord) (rest : List Coord)
    (i : ℕ) (t d : ℝ) (pe : Option ℝ) :
    ((gtpGo C n tr (c :: rest) i t d pe).getD 0 d0G).time = some t := by
  cases rest <;> simp [gtpGo, legacyPoint]

/-- With noise on and elevation tracked, the legacy segment time divides the
distance by the noisy speed times the grade multiplier computed from the
current elevation minus the previous one. -/
lemma legacySegMs_noise_track (C : LegacyCtx) (n : ℕ) (tr : ℝ)
    (hnoise : C.addNoise = true) (htrack : C.trackElev)
    (c c2 : Coord) (i : ℕ) (d : ℝ) (e' : ℝ) :
    legacySegMs C n tr c c2 i d (some e') =
      C.tdist c c2 /
        (C.speedKmh * (0.8 + C.sU i * 0.4) *
          calculateSpeedAdjustmentForElevation
            (calculateElevation i n d tr (C.elevationGain.getD 0)
              C.elevationProfile 0 (C.eU i) - e')
            (C.tdist c c2)) * 3600 * 1000 := by
  unfold legacySegMs legacySpeed legacyElev
  rw [hnoise, if_pos htrack]
  simp

/-- Characterization of the legacy loop's segment times when noise is on and
elevation is tracked: index `k` addresses the output point `k` of the
sub-call, and the time of point `k+2` is the time of point `k+1` plus the
segment time computed from the noisy, grade-adjusted speed. -/
lemma gtpGo_grade_gap (C : LegacyCtx) (n : ℕ) (tr : ℝ)
    (hnoise : C.addNoise = true) (htrack : C.trackElev) :
    ∀ (k : ℕ) (c0 c1 : Coord) (cs : List Coord) (i : ℕ) (t d : ℝ) (pe : Option ℝ),
      k + 2 < (c0 :: c1 :: cs).length →
      ∃ e e' t',
        ((gtpGo C n tr (c0 :: c1 :: cs) i t d pe).getD k d0G).elevation = some e' ∧
        ((gtpGo C n tr (c0 :: c1 :: cs) i t d pe).getD (k + 1) d0G).elevation = some e ∧
        ((gtpGo C n tr (c0 :: c1 :: cs) i t d pe).getD (k + 1) d0G).time = some t' ∧
        ((gtpGo C n tr (c0 :: c1 :: cs) i t d pe).getD (k + 2) d0G).time =
          some (t' +
            (C.tdist ((c0 :: c1 :: cs).getD (k + 1) dC) ((c0 :: c1 :: cs).getD (k + 2) dC) /
                (C.speedKmh * (0.8 + C.sU (i + (k + 1)) * 0.4) *
                  calculateSpeedAdjustmentForElevation (e - e')
                    (C.tdist ((c0 :: c1 :: cs).getD (k + 1) dC)
                      ((c0 :: c1 :: cs).getD (k + 2) dC))) * 3600 * 1000 +
              legacyPauseMs C (i + (k + 1)))) := by
  intro k
  induction k with
  | zero =>
    intro c0 c1 cs i t d pe h
    match cs with
    | [] => simp at h
    | c2 :: cs' =>
      refine ⟨calculateElevation (i + 1) n (d + C.tdist c0 c1) tr (C.elevationGain.getD 0)
          C.elevationProfile 0 (C.eU (i + 1)),
        calculateElevation i n d tr (C.elevationGain.getD 0) C.elevationProfile 0 (C.eU i),
        t + legacySegMs C n tr c0 c1 i d pe + legacyPauseMs C i, ?_, ?_, ?_, ?_⟩
      · simp [gtpGo, legacyPoint, legacyElev, htrack]
      · simp [gtpGo, legacyPoint, legacyElev, htrack]
      · simp [gtpGo, legacyPoint]
      · have hE : legacyElev C n tr i d = some (calculateElevation i n d tr
            (C.elevationGain.getD 0) C.elevationProfile 0 (C.eU i)) := by
          unfold legacyElev
          rw [if_pos htrack]
        simp only [gtpGo, List.getD_cons_succ, List.getD_cons_zero]
        rw [gtpGo_head_time, hE,
          legacySegMs_noise_track C n tr hnoise htrack c1 c2 (i + 1) (d + C.tdist c0 c1)]
        congr 1
        simp only [Nat.zero_add]
        ring
  | succ k ih =>
    intro c0 c1 cs i t d pe h
    match cs with
    | [] => simp at h
    | c2 :: cs' =>
      have h' : k + 2 < (c1 :: c2 :: cs').length := by
        simp only [List.length_cons] at h ⊢
        omega
      obtain ⟨e, e', t', h1, h2, h3, h4⟩ := ih c1 c2 cs' (i + 1)
        (t + legacySegMs C n tr c0 c1 i d pe + legacyPauseMs C i) (d + C.tdist c0 c1)
        (legacyElev C n tr i d) h'
      have hidx : i + 1 + (k + 1) = i + (k + 1 + 1) := by omega
      rw [hidx] at h4
      refine ⟨e, e', t', ?_, ?_, ?_, ?_⟩
      · simp only [gtpGo, List.getD_cons_succ]
        exact h1
      · simp only [gtpGo, List.getD_cons_succ]
        exact h2
      · simp only [gtpGo, List.getD_cons_succ]
        exact h3
      · simp only [gtpGo, List.getD_cons_succ]
        exact h4

/-- C9 amended. In the legacy path, when noise is enabled and elevation is
being tracked, every interior segment's travel time is derived from the
speed `speedKmh × (0.8 + 0.4·u) × gradeMultiplier`, where the grade
multiplier is computed from `(elevation[j] - elevation[j-1])` and the
segment distance; with noise disabled the grade multiplier is not applied
(see the counterexample). -/
theorem claim9_amended_grade (C : LegacyCtx) (coords : List Coord)
    (hnoise : C.addNoise = true) (htrack : C.trackElev) :
    ∀ j, 1 ≤ j → j + 1 < coords.length →
    ∃ e e' t',
      ((generateTrackPoints C coords).getD (j - 1) d0G).elevation = some e' ∧
      ((generateTrackPoints C coords).getD j d0G).elevation = some e ∧
      ((generateTrackPoints C coords).getD j d0G).time = some t' ∧
      ((generateTrackPoints C coords).getD (j + 1) d0G).time =
        some (t' +
          (C.tdist (coords.getD j dC) (coords.getD (j + 1) dC) /
              (C.speedKmh * (0.8 + C.sU j * 0.4) *
                calculateSpeedAdjustmentForElevation (e - e')
                  (C.tdist (coords.getD j dC) (coords.getD (j + 1) dC))) * 3600 * 1000 +
            legacyPauseMs C j)) := by
  intro j hj hlen
  obtain ⟨k, rfl⟩ : ∃ k, j = k + 1 := ⟨j - 1, by omega⟩
  match coords, hlen with
  | c0 :: c1 :: cs, hlen2 =>
    have hlt : ¬((c0 :: c1 :: cs).length < 2) := by
      simp only [List.length_cons]
      omega
    rw [generateTrackPoints, if_neg hlt]
    have := gtpGo_grade_gap C (c0 :: c1 :: cs).length
      (calculateCoordinatesDistance C.tdist (c0 :: c1 :: cs)) hnoise htrack k c0 c1 cs
      0 C.startTime 0 none (by simpa using hlen2)
    simpa using this

theorem claim9_amended_grade_witness :
    (c9NoiseCtx.addNoise = true ∧ c9NoiseCtx.trackElev ∧
      1 ≤ 1 ∧ 1 + 1 < c9Coords.length) ∧
    ∃ e e' t',
      ((generateTrackPoints c9NoiseCtx c9Coords).getD 0 d0G).elevation = some e' ∧
      ((generateTrackPoints c9NoiseCtx c9Coords).getD 1 d0G).elevation = some e ∧
      ((generateTrackPoints c9NoiseCtx c9Coords).getD 1 d0G).time = some t' ∧
      ((generateTrackPoints c9NoiseCtx c9Coords).getD 2 d0G).time =
        some (t' +
          (c9NoiseCtx.tdist (c9Coords.getD 1 dC) (c9Coords.getD 2 dC) /
              (c9NoiseCtx.speedKmh * (0.8 + c9NoiseCtx.sU 1 * 0.4) *
                calculateSpeedAdjustmentForElevation (e - e')
                  (c9NoiseCtx.tdist (c9Coords.getD 1 dC) (c9Coords.getD 2 dC))) *
              3600 * 1000 +
            legacyPauseMs c9NoiseCtx 1)) := by
  have htrack : c9NoiseCtx.trackElev := by
    simp [LegacyCtx.trackElev, c9NoiseCtx]
  have hlen : 1 + 1 < c9Coords.length := by simp [c9Coords]
  refine ⟨⟨rfl, htrack, le_refl 1, hlen⟩, ?_⟩
  have h := claim9_amended_grade c9NoiseCtx c9Coords rfl htrack 1 (le_refl 1) hlen
  simpa using h

lemma calcElev_c9_0 (d tr : ℝ) :
    calculateElevation 0 3 d tr 0 ElevationProfile.hilly 0 (1 / 2) = 20 := by
  have hsin : Real.sin (((0 : ℕ) : ℝ) / (((3 : ℕ) : ℝ) - 1) * π * 2) = 0 := by
    rw [show ((0 : ℕ) : ℝ) / (((3 : ℕ) : ℝ) - 1) * π * 2 = 0 by push_cast; ring,
      Real.sin_zero]
  unfold calculateElevation
  dsimp only
  rw [hsin]
  unfold jsRound
  norm_num [ELEVATION_PROFILES]

lemma calcElev_c9_1 (d tr : ℝ) :
    calculateElevation 1 3 d tr 0 ElevationProfile.hilly 0 (19 / 20) = 25 := by
  have hsin : Real.sin (((1 : ℕ) : ℝ) / (((3 : ℕ) : ℝ) - 1) * π * 2) = 0 := by
    rw [show ((1 : ℕ) : ℝ) / (((3 : ℕ) : ℝ) - 1) * π * 2 = π by push_cast; ring,
      Real.sin_pi]
  unfold calculateElevation
  dsimp only
  rw [hsin]
  unfold jsRound
  norm_num [ELEVATION_PROFILES]

/-- C9 counterexample: a legacy generation call with elevation tracked
(hilly profile) but noise disabled. The second and third points carry known
elevations 20 and 25 and are 10 m apart, so the grade multiplier for their
segment is 0.6 — yet the segment's travel time is 3600 ms, exactly
`distance / speedKmh`, not the 6000 ms that dividing by
`speedKmh × 0.6` would give: the grade multiplier is not applied when noise
is off. -/
theorem claim9_counterexample :
    ((generateTrackPoints c9Ctx c9Coords).getD 0 d0G).elevation = some 20 ∧
    ((generateTrackPoints c9Ctx c9Coords).getD 1 d0G).elevation = some 25 ∧
    ((generateTrackPoints c9Ctx c9Coords).getD 1 d0G).time = some 3600 ∧
    ((generateTrackPoints c9Ctx c9Coords).getD 2 d0G).time = some 7200 ∧
    calculateSpeedAdjustmentForElevation (25 - 20) (1 / 100) = 0.6 ∧
    (7200 - 3600 : ℝ) ≠
      1 / 100 / (c9Ctx.speedKmh *
        calculateSpeedAdjustmentForElevation (25 - 20) (1 / 100)) * 3600 * 1000 := by
  have hadj : calculateSpeedAdjustmentForElevation (25 - 20) (1 / 100) = 0.6 := by
    unfold calculateSpeedAdjustmentForElevation
    rw [if_neg (by norm_num : ¬(1 / 100 : ℝ) = 0)]
    dsimp only
    rw [if_pos (by norm_num : ((25 - 20 : ℝ) / 1000) / (1 / 100) > 0.05)]
  have hlen : ¬(c9Coords.length < 2) := by simp [c9Coords]
  refine ⟨?_, ?_, ?_, ?_, hadj, ?_⟩
  · rw [generateTrackPoints, if_neg hlen]
    simp only [c9Coords, gtpGo, List.getD_cons_zero, legacyPoint]
    norm_num [legacyElev, LegacyCtx.trackElev, c9Ctx]
    exact ⟨by decide, calcElev_c9_0 _ _⟩
  · rw [generateTrackPoints, if_neg hlen]
    simp only [c9Coords, gtpGo, List.getD_cons_zero, List.getD_cons_succ, legacyPoint]
    norm_num [legacyElev, LegacyCtx.trackElev, c9Ctx]
    exact ⟨by decide, calcElev_c9_1 _ _⟩
  · rw [generateTrackPoints, if_neg hlen]
    simp only [c9Coords, gtpGo, List.getD_cons_zero, List.getD_cons_succ, legacyPoint]
    norm_num [legacySegMs, legacySpeed, legacyPauseMs, c9Ctx]
  · rw [generateTrackPoints, if_neg hlen]
    simp only [c9Coords, gtpGo, List.getD_cons_zero, List.getD_cons_succ, legacyPoint]
    norm_num [legacySegMs, legacySpeed, legacyPauseMs, c9Ctx]
  · rw [hadj]
    norm_num [c9Ctx]

/-! ### XML escaping (C10) -/

lemma repl_append (c : Char) (r : List Char) : ∀ a b : List Char,
    repl c r (a ++ b) = repl c r a ++ repl c r b := by
  intro a
  induction a with
  | nil => intro b; simp [repl]
  | cons x xs ih => intro b; simp [repl, ih]

lemma escapeXml_append (a b : List Char) :
    escapeXml (a ++ b) = escapeXml a ++ escapeXml b := by
  unfold escapeXml
  rw [repl_append, repl_append, repl_append, repl_append, repl_append]

lemma escapeXml_single (c : Char) : escapeXml [c] = escChar c := by
  by_cases h1 : c = '&'
  · subst h1; decide
  by_cases h2 : c = '<'
  · subst h2; decide
  by_cases h3 : c = '>'
  · subst h3; decide
  by_cases h4 : c = quoteChar
  · subst h4; decide
  by_cases h5 : c = aposChar
  · subst h5; decide
  simp [escapeXml, repl, escChar, h1, h2, h3, h4, h5]

lemma escapeXml_eq_escAll (s : List Char) : escapeXml s = escAll s := by
  induction s with
  | nil => rfl
  | cons x s ih =>
    rw [show x :: s = [x] ++ s from rfl, escapeXml_append, ih, escapeXml_single]
    rfl

lemma rawFree_cons_other (c : Char) (l : List Char) (h1 : ¬c = '<') (h2 : ¬c = '>')
    (h3 : ¬c = quoteChar) (h4 : ¬c = aposChar) (h5 : ¬c = '&') :
    rawFree (c :: l) = rawFree l := by
  simp [rawFree, h1, h2, h3, h4, h5]

lemma rawFree_block (c : Char) (l : List Char) (h : rawFree l = true) :
    rawFree (escChar c ++ l) = true := by
  by_cases h1 : c = '&'
  · subst h1
    show rawFree (ampEnt ++ l) = true
    simp [rawFree, ampEnt, List.take, h]
    decide
  by_cases h2 : c = '<'
  · subst h2
    show rawFree (ltEnt ++ l) = true
    simp [rawFree, ltEnt, List.take, h]
    decide
  by_cases h3 : c = '>'
  · subst h3
    show rawFree (gtEnt ++ l) = true
    simp [rawFree, gtEnt, List.take, h]
    decide
  by_cases h4 : c = quoteChar
  · subst h4
    show rawFree (quotEnt ++ l) = true
    simp [rawFree, quotEnt, List.take, h]
    decide
  by_cases h5 : c = aposChar
  · subst h5
    show rawFree (aposEnt ++ l) = true
    simp [rawFree, aposEnt, List.take, h]
    decide
  have he : escChar c = [c] := by simp [escChar, h1, h2, h3, h4, h5]
  rw [he]
  rw [show ([c] ++ l) = c :: l from rfl, rawFree_cons_other c l h2 h3 h4 h5 h1]
  · exact h

lemma rawFree_escAll (s : List Char) : rawFree (escAll s) = true := by
  induction s with
  | nil => rfl
  | cons c s ih =>
    rw [show escAll (c :: s) = escChar c ++ escAll s from rfl]
    exact rawFree_block c (escAll s) ih

/-- C10. XML escaping: `escapeXml` performs exactly the per-character
replacement of the five XML metacharacters by their entities; the track name
`Test & Run <x>` serializes to `Test &amp; Run &lt;x&gt;`; the serializer
inserts `escapeXml name` verbatim between the metadata `<name>` tags for
every name; and every escaped string is free of raw metacharacters (no
angle bracket, quote or apostrophe, and every `&` starts an entity). -/
theorem claim10_xml_escaping :
    (∀ s, escapeXml s = escAll s) ∧
    escapeXml testName = testNameEscaped ∧
    (∀ (name description activityType : List Char) (points : List GPXPoint)
      (startTime : ℝ) (fc fn fd : ℝ → List Char),
      ∃ pre post,
        generateGPXXML name description activityType points startTime fc fn fd =
          pre ++ (nameOpen ++ escapeXml name ++ nameClose) ++ post) ∧
    ∀ s, rawFree (escapeXml s) = true := by
  refine ⟨escapeXml_eq_escAll, by decide, ?_, ?_⟩
  · intro name description activityType points startTime fc fn fd
    refine ⟨xmlPre, nl4 ++ descOpen ++ escapeXml description ++ descClose ++ nl4 ++
      timeOpen ++ fd startTime ++ timeClose ++ midMeta ++ nameOpen ++ escapeXml name ++
      nameClose ++ nl4 ++ typeOpen ++ escapeXml activityType ++ typeClose ++ nl4 ++
      trksegOpen ++
      List.intercalate newlineL (points.map (trkptXml fc fn fd)) ++ xmlPost, ?_⟩
    simp [generateGPXXML, List.append_assoc]
  · intro s
    rw [escapeXml_eq_escAll]
    exact rawFree_escAll s

end FakeStrava
